import Mathlib

/-
Verification development for the GridHandler repository
(src/GridHandler/GridHandler.py).  The Python code is shallowly embedded:
pure string/path manipulation becomes Lean functions over `String` and
`List Char`; the filesystem, grid connections and the worker pool are
modelled by explicit state passing and oracle functions; Python exceptions
become `Except PyError`.
-/

/-- Python exceptions that the embedded code can raise.
`typeError` models the `TypeError` raised by `os.path.join()` when it is
called with zero arguments (as in `os.path.join(*[])`), `attributeError`
models the `AttributeError` raised when reading an attribute that has been
`del`eted from the object. -/
inductive PyError
  | typeError
  | attributeError
deriving DecidableEq

/-- Split a list of characters at every occurrence of `sep`, keeping empty
chunks, as Python `str.split(sep)` does (`"".split(sep) == [""]`,
`"a//b".split("/") == ["a","","b"]`). -/
def splitChars (sep : Char) : List Char → List (List Char)
  | [] => [[]]
  | c :: rest =>
      let tail := splitChars sep rest
      if c = sep then [] :: tail
      else
        match tail with
        | [] => [[c]]
        | t :: ts => (c :: t) :: ts

/-- Python `s.split(sep)` for a one-character separator. -/
def pySplit (sep : Char) (s : String) : List String :=
  (splitChars sep s.toList).map String.mk

/-- Python `s.strip("/")`: remove every leading and trailing `'/'`. -/
def pyStripSlashes (s : String) : String :=
  String.mk (((s.toList.dropWhile (fun c => c = '/')).reverse.dropWhile
      (fun c => c = '/')).reverse)

/-- Whether the string `p` occurs at the start of `s` (Python
`s.startswith(p)`), computed on character lists. -/
def charsLeading : List Char → List Char → Bool
  | [], _ => true
  | _ :: _, [] => false
  | a :: as, b :: bs => a = b && charsLeading as bs

/-- Python `s.startswith(p)`. -/
def pyStartsWith (s p : String) : Bool := charsLeading p.toList s.toList

/-- Python `s.endswith(p)`. -/
def pyEndsWith (s p : String) : Bool :=
  charsLeading p.toList.reverse s.toList.reverse

/-- One step of CPython's `posixpath.join`: combine the accumulated `path`
with the next component `b` (`if b.startswith('/'): path = b; elif not path
or path.endswith('/'): path += b; else: path += '/' + b`). -/
def posixJoin1 (path b : String) : String :=
  if pyStartsWith b "/" then b
  else if path = "" || pyEndsWith path "/" then path ++ b
  else path ++ "/" ++ b

/-- `os.path.join(a, *ps)` on POSIX. -/
def posixJoin (a : String) (ps : List String) : String :=
  ps.foldl posixJoin1 a

/-- `os.path.join(*l)` for a possibly-empty argument list, as produced by
argument unpacking: with zero arguments Python raises `TypeError`
(`join() missing 1 required positional argument`). -/
def posixJoinList : List String → Except PyError String
  | [] => .error .typeError
  | a :: rest => .ok (posixJoin a rest)

/-- Python `"_".join(l)`. -/
def joinUnderscore : List String → String
  | [] => ""
  | [a] => a
  | a :: rest => a ++ "_" ++ joinUnderscore rest

/-- `parts = remote_path.strip("/").split("/")` in `_unique_local_path`
and `_auto_unique_path`.  Always non-empty, since `str.split` never
returns an empty list. -/
def pyParts (remote : String) : List String :=
  pySplit '/' (pyStripSlashes remote)

/-- The directory segments of the remote path: every part except the last.
(`parts[:-1]`.) -/
def pyDirs (remote : String) : List String := (pyParts remote).dropLast

/-- `filename = parts[-1]` in `_unique_local_path`. -/
def pyFilename (remote : String) : String := (pyParts remote).getLastD ""

/-- The Python slice `parts[-(keep_depth + 1) : -1]`.  For a list of length
`n` the slice runs from index `max 0 (n - keep_depth - 1)` up to (but not
including) index `n - 1`, which is exactly the last `min keep_depth (n-1)`
elements of `parts.dropLast`. -/
def keptDirs (remote : String) (k : Nat) : List String :=
  (pyDirs remote).drop ((pyDirs remote).length - k)

/-- Shallow embedding of `GridHandler._unique_local_path`.  The
`keep_depth is None` branch returns `os.path.join(self.output_dir, *parts)`;
the other branch computes `sub_path = os.path.join(*parts[-(keep_depth+1):-1])`
— which raises `TypeError` when the slice is empty — and then returns
`os.path.join(self.output_dir, sub_path, filename)`. -/
def uniqueLocalPath (outputDir : String) (keepDepth : Option Nat)
    (remote : String) : Except PyError String :=
  match keepDepth with
  | none => .ok (posixJoin outputDir (pyParts remote))
  | some k =>
      match keptDirs remote k with
      | [] => .error .typeError
      | a :: rest =>
          .ok (posixJoin outputDir [posixJoin a rest, pyFilename remote])

/-- The suffix name `"_".join(remote_path.strip("/").split("/")[-depth:])`
built inside the loop of `_auto_unique_path` (`depth ≥ 1`). -/
def suffixName (segs : List String) (depth : Nat) : String :=
  joinUnderscore (segs.drop (segs.length - depth))

/-- The `for depth in range(1, 10)` loop of `_auto_unique_path`: return
`os.path.join(output_dir, local_name)` for the first depth whose suffix
name is not in `seen`; if every depth collides, fall back to
`os.path.join(output_dir, filename)`. -/
def autoUniqueGo (outputDir filename : String) (segs : List String) :
    List Nat → List String → String
  | [], _ => posixJoin outputDir [filename]
  | d :: ds, seen =>
      let localName := suffixName segs d
      if localName ∈ seen then autoUniqueGo outputDir filename segs ds seen
      else posixJoin outputDir [localName]

/-- Shallow embedding of `GridHandler._auto_unique_path`.  Note that the
Python function initializes `seen = set()` as a fresh local variable on
every call (it takes no `seen` argument from the caller), so the loop is
entered with an empty `seen` set each time. -/
def autoUniquePath (outputDir remote filename : String) : String :=
  autoUniqueGo outputDir filename (pyParts remote)
    [1, 2, 3, 4, 5, 6, 7, 8, 9] []

/-- `os.path.join(*l)` for a non-empty list, as a total function (used to
state which directory segments end up in the result). -/
def joinSegs : List String → String
  | [] => ""
  | a :: rest => posixJoin a rest

/-- An AliEn session object as returned by `alien.InitConnection()`,
abstracted to an identifier. -/
structure Session where
  id : Nat
deriving DecidableEq

/-- The state of the `alien_session` attribute on a `GridHandler` object:
`absent` after `del self.alien_session`, otherwise `present s` where `s`
is the stored value (`None` or a session). -/
inductive SessionAttr
  | absent
  | present (s : Option Session)
deriving DecidableEq

/-- The configuration-derived state of a `GridHandler` object (the fields
of `self` read by the download engine; `alien_args` and the logging setup
are not claim-relevant).  `remote_files = none` models Python `None`. -/
structure Handler where
  backend : String
  output_dir : String
  remote_files : Option (List String)
  remote_files_glob : Option (List (String × String))
  num_workers : Nat
  keep_depth : Option Nat
  alien_session : SessionAttr
deriving DecidableEq

/-- `self._unique_local_path(remote)`: the method reads only
`self.output_dir` and `self.keep_depth` from the handler. -/
def handlerLocalPath (h : Handler) (remote : String) : Except PyError String :=
  uniqueLocalPath h.output_dir h.keep_depth remote

/-- A `TGrid` connection handle (`ROOT.gGrid`); `isConnected` is what
`handle.IsConnected()` reports. -/
structure Handle where
  isConnected : Bool
deriving DecidableEq

/-- `alien://` URI normalization from `_download_tgrid` /
`_download_alien`. -/
def alienUri (r : String) : String :=
  if pyStartsWith r "alien://" then r else "alien://" ++ r

/-- `file:` URI normalization from `_download_tgrid` /
`_download_alien`. -/
def fileUri (l : String) : String :=
  if pyStartsWith l "file:" then l else "file:" ++ l

/-- Observable result of one `_download_tgrid` call: the Python return
value (`local_file` or `None`), the process-local
`_worker_grid_connection` global afterwards, and whether `ROOT.TFile.Cp`
was invoked. -/
structure TgridResult where
  ret : Option String
  cache : Option Handle
  copyInvoked : Bool
deriving DecidableEq

/-- The copy step at the end of `_download_tgrid`: prefix the URIs and
invoke `ROOT.TFile.Cp` (modelled by the oracle `copyOk`, giving that
call's boolean result). -/
def tgridCopy (copyOk : String → String → Bool) (remote localFile : String)
    (cache : Option Handle) : TgridResult :=
  if copyOk (alienUri remote) (fileUri localFile) then
    ⟨some localFile, cache, true⟩
  else
    ⟨none, cache, true⟩

/-- Shallow embedding of `_download_tgrid`.  `cache` is the process-local
global `_worker_grid_connection` on entry; `connectResult` is the value of
`ROOT.gGrid` after `TGrid::Connect` runs (`none` models a null handle).
Faithful to the source, the global is assigned `ROOT.gGrid` *before* the
`IsConnected` check, so a non-null but not-connected handle stays in the
cache even though the call returns `None`. -/
def downloadTgrid (connectResult : Option Handle)
    (copyOk : String → String → Bool) (remote localFile : String)
    (cache : Option Handle) : TgridResult :=
  match cache with
  | none =>
      match connectResult with
      | none => ⟨none, none, false⟩
      | some h =>
          if h.isConnected then tgridCopy copyOk remote localFile (some h)
          else ⟨none, some h, false⟩
  | some h => tgridCopy copyOk remote localFile (some h)

/-- Observable result of one `_download_file` call: the Python return
value, the worker's connection cache afterwards, whether the backend copy
primitive (`ROOT.TFile.Cp`) was invoked, and whether the
"Skipping existing file" branch was taken. -/
structure FileResult where
  ret : Option String
  cache : Option Handle
  copyInvoked : Bool
  skipLogged : Bool
deriving DecidableEq

/-- Shallow embedding of `_download_file`.  `fs` is the set of local paths
that currently exist on disk (`os.path.exists`); the initial
`os.makedirs` only creates directories and does not affect file
existence.  If the local file exists the job is skipped (the Python
returns `local_file`, a non-`None`, hence non-failure, result) without
touching the connection or the copy primitive; otherwise the `TGrid`
backend delegates to `_download_tgrid`, and any other backend returns
`None`. -/
def downloadFile (backend : String) (connectResult : Option Handle)
    (copyOk : String → String → Bool) (fs : List String)
    (remote localFile : String) (cache : Option Handle) : FileResult :=
  if localFile ∈ fs then ⟨some localFile, cache, false, true⟩
  else if backend = "TGrid" then
    let r := downloadTgrid connectResult copyOk remote localFile cache
    ⟨r.ret, r.cache, r.copyInvoked, false⟩
  else ⟨none, cache, false, false⟩

/-- A worker processing its jobs in sequence (one job at a time, as the
pool hands them out), threading the filesystem and the process-local
connection cache.  A successful copy materializes the destination file
(the backend's file-transfer contract), so a job that returned non-`None`
leaves its local path existing. -/
def runJobs (backend : String) (connectResult : Option Handle)
    (copyOk : String → String → Bool) :
    List (String × String) → List String → Option Handle →
      List FileResult × List String × Option Handle
  | [], fs, cache => ([], fs, cache)
  | (r, l) :: jobs, fs, cache =>
      let res := downloadFile backend connectResult copyOk fs r l cache
      let fs' := if res.ret.isSome then l :: fs else fs
      let rest := runJobs backend connectResult copyOk jobs fs' res.cache
      (res :: rest.1, rest.2)

/-- Python truthiness of `f.strip()`: the string contains a
non-whitespace character. -/
def pyTruthyStr (s : String) : Bool :=
  s.toList.any (fun c => !c.isWhitespace)

/-- `[f for f in result.out.split("\n") if f.strip()]` in
`_resolve_remote_globs`. -/
def parseFindOut (out : String) : List String :=
  (pySplit '\n' out).filter (fun f => pyTruthyStr f)

/-- The accumulation loop of `_resolve_remote_globs`: one entry per glob
spec, `none` when `alien.DO_find2` raised or returned a falsy/empty
result (that spec only logs and contributes nothing), `some out` when it
returned text to parse. -/
def collectFinds : List (Option String) → List String
  | [] => []
  | none :: rest => collectFinds rest
  | some out :: rest => parseFindOut out ++ collectFinds rest

/-- Shallow embedding of `_ensure_alien_connection`.  `alienAvailable`
is whether the `alienpy` module imported; `initResult` is what
`alien.InitConnection()` returns when called.  Reading the
`alien_session` attribute after it has been `del`eted raises
`AttributeError`; a `None`-valued attribute triggers connection
establishment, whose result is stored unconditionally (a `None` result
is stored as `None`, so a later call retries). -/
def ensureAlienConnection (alienAvailable : Bool)
    (initResult : Option Session) (attr : SessionAttr) :
    Except PyError (Option Session × SessionAttr) :=
  if !alienAvailable then .ok (none, attr)
  else
    match attr with
    | .absent => .error .attributeError
    | .present none => .ok (initResult, .present initResult)
    | .present (some s) => .ok (some s, .present (some s))

/-- Shallow embedding of `_resolve_remote_globs`: returns the list of
found remote paths together with the handler's `alien_session` attribute
afterwards.  Empty/absent glob config, a missing `alienpy` module, or a
failed session all yield an empty result; otherwise the per-spec
`DO_find2` results (`queryResults`, one entry per spec) are parsed and
concatenated in order. -/
def resolveRemoteGlobs (alienAvailable : Bool) (initResult : Option Session)
    (globCfg : Option (List (String × String)))
    (queryResults : List (Option String)) (attr : SessionAttr) :
    Except PyError (List String × SessionAttr) :=
  match globCfg with
  | none => .ok ([], attr)
  | some specs =>
      if specs.isEmpty then .ok ([], attr)
      else if !alienAvailable then .ok ([], attr)
      else
        match ensureAlienConnection alienAvailable initResult attr with
        | .error e => .error e
        | .ok (none, attr') => .ok ([], attr')
        | .ok (some _, attr') => .ok (collectFinds queryResults, attr')

/-- Shallow embedding of `_download_alien`.  `batchOk` is the oracle for
the single `alien.DO_XrootdCp` call on the prefixed URI lists: `true`
when the call returns without raising, `false` when it raises (the
exception is caught and `0` returned).  On success the function returns
`len(remote_files)` — the full batch length, with no per-file
granularity. -/
def downloadAlien (alienAvailable : Bool) (initResult : Option Session)
    (batchOk : List String → List String → Bool) (attr : SessionAttr)
    (remotes locals : List String) : Except PyError (Nat × SessionAttr) :=
  match ensureAlienConnection alienAvailable initResult attr with
  | .error e => .error e
  | .ok (none, attr') => .ok (0, attr')
  | .ok (some _, attr') =>
      if batchOk (remotes.map alienUri) (locals.map fileUri) then
        .ok (remotes.length, attr')
      else .ok (0, attr')

/-- `copy_list = [(f, self._unique_local_path(f)) for f in remote_files]`:
the list comprehension propagates any exception raised by the mapper. -/
def mapPaths (outputDir : String) (keepDepth : Option Nat) :
    List String → Except PyError (List (String × String))
  | [] => .ok []
  | f :: fsx =>
      match uniqueLocalPath outputDir keepDepth f with
      | .error e => .error e
      | .ok l =>
          match mapPaths outputDir keepDepth fsx with
          | .error e => .error e
          | .ok rest => .ok ((f, l) :: rest)

/-- Observable events of one `download()` call, in program order.
`listExtended` is the `self.remote_files.extend(found_files)` branch,
which mutates in place the very list object supplied in the
configuration; `listRebound` is the `self.remote_files = found_files`
branch, which rebinds the attribute to the freshly resolved list and
leaves any caller-supplied (empty) list object untouched.
`deletedSession` is `del self.alien_session`; `poolStarted` is the entry
into `Pool(...)`; `batchCalled` is the `_download_alien` call. -/
inductive Event
  | listExtended
  | listRebound
  | warnedNoFiles
  | deletedSession
  | poolStarted
  | batchCalled
deriving DecidableEq

/-- The environment of one `download()` call: module availability,
connection results, per-glob-spec query results, the per-job result each
pool worker reports back (`_download_file`'s return value), and the
batch-copy oracle. -/
structure Oracles where
  alienAvailable : Bool
  initResult : Option Session
  queryResults : List (Option String)
  workerFetch : String × String → Option String
  batchOk : List String → List String → Bool

/-- Observable outcome of one `download()` call.  `retval` is the Python
return value: the source's `download` ends every path with a bare
`return` or falls off the end, so it always returns `None` (`none` here);
it never returns a pair of counts.  `nOkTotal` is the `n_ok / total`
pair of the final log line when that line is reached. -/
structure DownloadRun where
  retval : Option (Nat × Nat)
  nOkTotal : Option (Nat × Nat)
  pool_jobs : List (String × String)
  trace : List Event
  handler : Handler
deriving DecidableEq

/-- Step 1 of `download()`: merge the glob-resolved paths into
`self.remote_files` (extend in place when the configured list is truthy,
rebind otherwise; no-op when nothing was found). -/
def mergeFound (h : Handler) (found : List String) : Handler × List Event :=
  if found.isEmpty then (h, [])
  else
    match h.remote_files with
    | some rs =>
        if rs.isEmpty then
          ({ h with remote_files := some found }, [.listRebound])
        else
          ({ h with remote_files := some (rs ++ found) }, [.listExtended])
    | none => ({ h with remote_files := some found }, [.listRebound])

/-- Shallow embedding of `GridHandler.download`.  The worker pool is
modelled by mapping the per-job oracle over the copy list (ordering of
job completion does not affect the aggregate count). -/
def download (h : Handler) (o : Oracles) : Except PyError DownloadRun :=
  match resolveRemoteGlobs o.alienAvailable o.initResult h.remote_files_glob
      o.queryResults h.alien_session with
  | .error e => .error e
  | .ok (found, attr1) =>
      let m := mergeFound { h with alien_session := attr1 } found
      match m.1.remote_files with
      | none => .ok ⟨none, none, [], m.2 ++ [.warnedNoFiles], m.1⟩
      | some rs =>
          if rs.isEmpty then
            .ok ⟨none, none, [], m.2 ++ [.warnedNoFiles], m.1⟩
          else
            match mapPaths m.1.output_dir m.1.keep_depth rs with
            | .error e => .error e
            | .ok copyList =>
                if m.1.backend = "TGrid" then
                  let del : Handler × List Event :=
                    match m.1.alien_session with
                    | .absent => (m.1, m.2)
                    | .present _ =>
                        ({ m.1 with alien_session := SessionAttr.absent },
                          m.2 ++ [.deletedSession])
                  .ok ⟨none,
                    some ((copyList.map o.workerFetch).countP
                        (fun r => r.isSome),
                      copyList.length),
                    copyList, del.2 ++ [.poolStarted], del.1⟩
                else if m.1.backend = "alienpy" then
                  match downloadAlien o.alienAvailable o.initResult o.batchOk
                      m.1.alien_session (copyList.map Prod.fst)
                      (copyList.map Prod.snd) with
                  | .error e => .error e
                  | .ok (nOk, attr2) =>
                      .ok ⟨none, some (nOk, copyList.length), [],
                        m.2 ++ [.batchCalled],
                        { m.1 with alien_session := attr2 }⟩
                else .ok ⟨none, none, [], m.2, m.1⟩

/-- The slice `parts[-(k+1):-1]` is empty exactly when `k = 0` or the path
has no directory segments. -/
theorem keptDirs_eq_nil_iff (remote : String) (k : Nat) :
    keptDirs remote k = [] ↔ min k (pyDirs remote).length = 0 := by
  unfold keptDirs
  rw [List.drop_eq_nil_iff]
  omega

/-- C2 counterexample: with `keep_depth = 0` the slice
`parts[-1:-1]` is empty and `os.path.join(*[])` raises `TypeError`;
the mapper does not return `out/d.root`. -/
theorem c2_counterexample :
    uniqueLocalPath "out" (some 0) "/a/b/c/d.root" = .error .typeError ∧
    uniqueLocalPath "out" (some 0) "/a/b/c/d.root" ≠ .ok "out/d.root" := by
  refine ⟨rfl, ?_⟩
  intro h
  exact Except.noConfusion h

/-- C2 amended: on `/a/b/c/d.root` with output dir `out` the mapper
returns `out/a/b/c/d.root` when `keep_depth` is unset and `out/b/c/d.root`
when `keep_depth = 2`; with `keep_depth = 0` it raises `TypeError`
instead of returning `out/d.root`. -/
theorem c2_keepDepthBoundary :
    uniqueLocalPath "out" none "/a/b/c/d.root" = .ok "out/a/b/c/d.root" ∧
    uniqueLocalPath "out" (some 2) "/a/b/c/d.root" = .ok "out/b/c/d.root" ∧
    uniqueLocalPath "out" (some 0) "/a/b/c/d.root" = .error .typeError :=
  ⟨rfl, rfl, rfl⟩

/-- C3 counterexample: `d.root` is a non-empty remote path with zero
directory segments (fewer than `keep_depth = 5`, the default), yet the
mapper raises `TypeError` rather than mapping it. -/
theorem c3_counterexample :
    uniqueLocalPath "out" (some 5) "d.root" = .error .typeError := rfl

/-- C3 amended: when the remote path has at least one directory segment
and fewer of them than `keep_depth`, the mapper succeeds and uses all the
directory segments that exist; only a path with zero directory segments
(a bare filename) raises. -/
theorem c3_fewerDirsThanKeepDepth (out remote : String) (k : Nat)
    (hne : pyDirs remote ≠ [])
    (hlt : (pyDirs remote).length < k) :
    uniqueLocalPath out (some k) remote =
      .ok (posixJoin out [joinSegs (pyDirs remote), pyFilename remote]) := by
  have h0 : (pyDirs remote).length - k = 0 := Nat.sub_eq_zero_of_le hlt.le
  have hkept : keptDirs remote k = pyDirs remote := by
    unfold keptDirs
    rw [h0, List.drop_zero]
  obtain ⟨a, rest, hd⟩ := List.exists_cons_of_ne_nil hne
  simp [uniqueLocalPath, hkept, hd, joinSegs]

theorem c3_fewerDirsThanKeepDepth_witness :
    uniqueLocalPath "out" (some 5) "a/b.root" =
      .ok (posixJoin "out" [joinSegs (pyDirs "a/b.root"), pyFilename "a/b.root"]) :=
  c3_fewerDirsThanKeepDepth "out" "a/b.root" 5 (by decide) (by decide)

/-- C4 counterexample: the empty remote path with `keep_depth` unset does
not raise (it returns `out/`), while the non-empty remote path `d.root`
with `keep_depth = 5` does raise — so "raises iff the remote path is
empty" fails in both directions (and the raised error is `TypeError`;
no `InvalidPathError` exists in the code). -/
theorem c4_counterexample :
    uniqueLocalPath "out" none "" = .ok "out/" ∧
    uniqueLocalPath "out" (some 5) "d.root" = .error .typeError :=
  ⟨rfl, rfl⟩

/-- C4 amended: the mapper is a pure function (no I/O in the embedding)
and raises exactly when `keep_depth` is set and
`min keep_depth (number of directory segments) = 0`, i.e. when
`keep_depth = 0` or the stripped path has no directory segments (the
empty path included); the error is the `TypeError` coming from
`os.path.join()` with zero arguments, not a malformed-input error. -/
theorem c4_raisesIffNoKeptDirs (out remote : String) (kd : Option Nat) :
    uniqueLocalPath out kd remote = .error .typeError ↔
      ∃ k, kd = some k ∧ min k (pyDirs remote).length = 0 := by
  cases kd with
  | none => simp [uniqueLocalPath]
  | some k =>
      rcases h : keptDirs remote k with _ | ⟨a, rest⟩
      · simp only [uniqueLocalPath, h]
        constructor
        · intro _
          exact ⟨k, rfl, (keptDirs_eq_nil_iff remote k).mp h⟩
        · intro _
          trivial
      · simp only [uniqueLocalPath, h]
        constructor
        · intro hcontra
          exact Except.noConfusion hcontra
        · rintro ⟨k', hk', hmin⟩
          injection hk' with hk'
          subst hk'
          rw [← keptDirs_eq_nil_iff remote k] at hmin
          rw [h] at hmin
          exact List.noConfusion hmin

/-- C5: for a fixed configuration `(output_dir, keep_depth)` the path
mapping is a deterministic pure function of the remote path — two
invocations on handlers that agree on those two fields (in particular two
invocations on the same handler, even after its other state was mutated)
yield the identical result. -/
theorem c5_deterministicMapping (h1 h2 : Handler) (remote : String)
    (hout : h1.output_dir = h2.output_dir)
    (hkd : h1.keep_depth = h2.keep_depth) :
    handlerLocalPath h1 remote = handlerLocalPath h2 remote := by
  unfold handlerLocalPath
  rw [hout, hkd]

theorem c5_deterministicMapping_witness :
    handlerLocalPath
        ⟨"TGrid", "out", some ["x"], none, 16, some 5, .present none⟩
        "a/b/c.root"
      = handlerLocalPath
        ⟨"alienpy", "out", none, none, 4, some 5, .absent⟩
        "a/b/c.root" :=
  c5_deterministicMapping _ _ _ rfl rfl

/-- C8 counterexample: starting from an empty cache, when connection
establishment yields a (non-null) handle that reports not connected, the
call returns the `None` sentinel — but the process-local cache does *not*
remain empty: the failed handle has been stored, so the next call in the
process will reuse it instead of retrying. -/
theorem c8_counterexample :
    (downloadTgrid (some ⟨false⟩) (fun _ _ => false) "r" "l" none).ret
        = none ∧
    (downloadTgrid (some ⟨false⟩) (fun _ _ => false) "r" "l" none).cache
        ≠ none :=
  ⟨rfl, fun h => Option.noConfusion h⟩

/-- C8 amended: when `TGrid::Connect` leaves a null `gGrid`, the call
returns the sentinel and the cache stays empty (so the next call does
retry); but when it yields a non-null handle that reports not connected,
the call returns the sentinel while caching that failed handle, and every
later call in the process skips connection establishment entirely and
goes straight to the copy with the cached handle. -/
theorem c8_failedHandleCaching
    (copyOk : String → String → Bool) (remote localFile : String) :
    downloadTgrid none copyOk remote localFile none = ⟨none, none, false⟩ ∧
    (∀ h : Handle, h.isConnected = false →
        downloadTgrid (some h) copyOk remote localFile none
          = ⟨none, some h, false⟩) ∧
    (∀ (h : Handle) (laterConnect : Option Handle),
        downloadTgrid laterConnect copyOk remote localFile (some h)
          = tgridCopy copyOk remote localFile (some h)) := by
  refine ⟨rfl, ?_, fun h laterConnect => rfl⟩
  intro h hconn
  simp [downloadTgrid, hconn]

theorem c8_failedHandleCaching_witness :
    downloadTgrid (some ⟨false⟩) (fun _ _ => true) "r" "l" none
      = ⟨none, some ⟨false⟩, false⟩ :=
  (c8_failedHandleCaching (fun _ _ => true) "r" "l").2.1 ⟨false⟩ rfl

/-- An existing file is never removed by running more jobs. -/
theorem runJobs_fs_mono (backend : String) (conn : Option Handle)
    (copyOk : String → String → Bool) (jobs : List (String × String))
    (fs : List String) (cache : Option Handle) (x : String)
    (hx : x ∈ fs) :
    x ∈ (runJobs backend conn copyOk jobs fs cache).2.1 := by
  induction jobs generalizing fs cache with
  | nil => exact hx
  | cons job jobs ih =>
      obtain ⟨r, l⟩ := job
      simp only [runJobs]
      apply ih
      by_cases hres :
          (downloadFile backend conn copyOk fs r l cache).ret.isSome
      · simp [hres, List.mem_cons, hx]
      · simp [hres, hx]

/-- If every job of a run returned non-`None`, then afterwards every
job's local path exists on disk. -/
theorem runJobs_all_ok_files_exist (backend : String) (conn : Option Handle)
    (copyOk : String → String → Bool) (jobs : List (String × String))
    (fs : List String) (cache : Option Handle)
    (hall : ∀ res ∈ (runJobs backend conn copyOk jobs fs cache).1,
        res.ret.isSome = true) :
    ∀ p ∈ jobs, p.2 ∈ (runJobs backend conn copyOk jobs fs cache).2.1 := by
  induction jobs generalizing fs cache with
  | nil => intro p hp; exact absurd hp (List.not_mem_nil p)
  | cons job jobs ih =>
      obtain ⟨r, l⟩ := job
      intro p hp
      have hres0 :
          (downloadFile backend conn copyOk fs r l cache).ret.isSome = true := by
        apply hall
        simp [runJobs]
      rcases List.mem_cons.mp hp with hp | hp
      · subst hp
        simp only [runJobs, hres0, if_true]
        exact runJobs_fs_mono backend conn copyOk jobs _ _ l
          (List.mem_cons_self _ _)
      · simp only [runJobs]
        refine ih _ _ ?_ p hp
        intro res hres
        apply hall
        simp only [runJobs, List.mem_cons]
        exact Or.inr hres

/-- If every job's local path already exists, every job of the run is
skipped: the existing-file branch is logged, the copy primitive is not
invoked, and the Python return value is the (non-`None`) local path. -/
theorem runJobs_all_exist_skip (backend : String) (conn : Option Handle)
    (copyOk : String → String → Bool) (jobs : List (String × String))
    (fs : List String) (cache : Option Handle)
    (hex : ∀ p ∈ jobs, p.2 ∈ fs) :
    ∀ res ∈ (runJobs backend conn copyOk jobs fs cache).1,
      res.skipLogged = true ∧ res.copyInvoked = false ∧
        res.ret.isSome = true := by
  induction jobs generalizing fs cache with
  | nil => intro res hres; exact absurd hres (List.not_mem_nil res)
  | cons job jobs ih =>
      obtain ⟨r, l⟩ := job
      have hl : l ∈ fs := hex (r, l) (List.mem_cons_self _ _)
      have hfile : downloadFile backend conn copyOk fs r l cache
          = ⟨some l, cache, false, true⟩ := by
        simp [downloadFile, hl]
      intro res hres
      simp only [runJobs, hfile, List.mem_cons, Option.isSome_some,
        if_true] at hres
      rcases hres with hres | hres
      · subst hres; exact ⟨rfl, rfl, rfl⟩
      · exact ih _ _
          (fun p hp => List.mem_cons_of_mem l
            (hex p (List.mem_cons_of_mem (r, l) hp))) res hres

/-- C7: in the per-file (`TGrid`) fetch, a job whose local path already
exists on disk returns the skipped (non-failure) outcome — the Python
return value is the local path, the skip branch is logged, the cache is
untouched and the backend copy primitive is never invoked; consequently,
if every job of a first run returned non-`None` (success or skip), a
second run over the same jobs on the resulting filesystem — with any
connection state and any copy oracle — skips every job. -/
theorem c7_skipExistingAndIdempotentRerun
    (conn conn2 : Option Handle) (copyOk copyOk2 : String → String → Bool)
    (jobs : List (String × String)) (fs fs1 : List String)
    (cache cache2 c : Option Handle) (remote localFile : String)
    (hmem : localFile ∈ fs1)
    (hall : ((runJobs "TGrid" conn copyOk jobs fs cache).1.all
        fun res => res.ret.isSome) = true) :
    downloadFile "TGrid" conn copyOk fs1 remote localFile c
        = ⟨some localFile, c, false, true⟩ ∧
    ((runJobs "TGrid" conn2 copyOk2 jobs
        (runJobs "TGrid" conn copyOk jobs fs cache).2.1 cache2).1.all
      fun res => res.skipLogged && !res.copyInvoked && res.ret.isSome)
      = true := by
  constructor
  · simp [downloadFile, hmem]
  · rw [List.all_eq_true]
    intro res hres
    have hex := runJobs_all_ok_files_exist "TGrid" conn copyOk jobs fs cache
      (by rw [List.all_eq_true] at hall; exact hall)
    have h3 := runJobs_all_exist_skip "TGrid" conn2 copyOk2 jobs _ cache2
      hex res hres
    simp [h3.1, h3.2.1, h3.2.2]

theorem c7_skipExistingAndIdempotentRerun_witness :
    downloadFile "TGrid" (some ⟨true⟩) (fun _ _ => true) ["lx"] "r" "lx" none
        = ⟨some "lx", none, false, true⟩ ∧
    ((runJobs "TGrid" none (fun _ _ => false) [("r1", "l1"), ("r2", "l2")]
        (runJobs "TGrid" (some ⟨true⟩) (fun _ _ => true)
          [("r1", "l1"), ("r2", "l2")] [] none).2.1 none).1.all
      fun res => res.skipLogged && !res.copyInvoked && res.ret.isSome)
      = true :=
  c7_skipExistingAndIdempotentRerun (some ⟨true⟩) none (fun _ _ => true)
    (fun _ _ => false) [("r1", "l1"), ("r2", "l2")] [] ["lx"] none none none
    "r" "lx" (by decide) (by decide)

/-- C6 counterexample: with no remote files and no globs configured,
`download()` warns and executes a bare `return`: its Python return value
is `None`, not the pair `(0, 0)` the claim asserts (the source's
`download` never returns a value on any path). -/
theorem c6_counterexample :
    (download ⟨"TGrid", "out", none, none, 16, some 5, .present none⟩
        ⟨false, none, [], fun _ => none, fun _ _ => false⟩).toOption.map
        DownloadRun.retval
      = some none ∧
    (download ⟨"TGrid", "out", none, none, 16, some 5, .present none⟩
        ⟨false, none, [], fun _ => none, fun _ _ => false⟩).toOption.map
        DownloadRun.retval
      ≠ some (some (0, 0)) := by
  exact ⟨rfl, by decide⟩

/-- C6 amended: when the combined file list (explicit `remote_files` plus
glob-resolved paths) is empty, `download` logs the "No remote files
specified" warning and returns early without raising — returning `None`
(not `(0, 0)`: the function never returns counts), dispatching no pool
job and no batch call. -/
theorem c6_emptyListWarnsAndReturns (h : Handler) (o : Oracles)
    (attr1 : SessionAttr)
    (hglob : resolveRemoteGlobs o.alienAvailable o.initResult
        h.remote_files_glob o.queryResults h.alien_session
        = .ok ([], attr1))
    (hempty : h.remote_files = none ∨ h.remote_files = some []) :
    download h o
      = .ok ⟨none, none, [], [.warnedNoFiles],
          { h with alien_session := attr1 }⟩ := by
  unfold download
  rw [hglob]
  rcases hempty with he | he
  · simp [mergeFound, he]
  · simp [mergeFound, he]

theorem c6_emptyListWarnsAndReturns_witness :
    download ⟨"alienpy", "out", some [], none, 8, none, .present none⟩
        ⟨true, some ⟨1⟩, [], fun _ => none, fun _ _ => true⟩
      = .ok ⟨none, none, [], [.warnedNoFiles],
          ⟨"alienpy", "out", some [], none, 8, none, .present none⟩⟩ :=
  c6_emptyListWarnsAndReturns _ _ _ rfl (Or.inr rfl)

/-- C9: the batched (`alienpy`) backend is all-or-nothing.  For any
equal-length remote/local sequences: when the `alienpy` module is
missing, `_download_alien` returns 0; when connection establishment
yields no session, it returns 0; when the single `DO_XrootdCp` call on
the prefixed URI lists raises, it returns 0; when that call succeeds, it
returns the full batch length.  And the orchestrator's `alienpy` branch
uses that returned value directly as `n_ok` in the final
`n_ok/total` tally. -/
theorem c9_batchAllOrNothing (initRes : Option Session) (s : Option Session)
    (batchOk : List String → List String → Bool)
    (remotes locals : List String) (h : Handler) (o : Oracles)
    (rs : List String) (copyList : List (String × String))
    (nOk : Nat) (attr2 : SessionAttr)
    (hlen : remotes.length = locals.length) :
    (downloadAlien false initRes batchOk (.present s) remotes locals
        = .ok (0, .present s)) ∧
    (downloadAlien true none batchOk (.present none) remotes locals
        = .ok (0, .present none)) ∧
    (∀ sess : Session,
        batchOk (remotes.map alienUri) (locals.map fileUri) = false →
        downloadAlien true initRes batchOk (.present (some sess)) remotes
            locals
          = .ok (0, .present (some sess))) ∧
    (∀ sess : Session,
        batchOk (remotes.map alienUri) (locals.map fileUri) = true →
        downloadAlien true initRes batchOk (.present (some sess)) remotes
            locals
          = .ok (remotes.length, .present (some sess))) ∧
    (h.backend = "alienpy" → h.remote_files_glob = none →
        h.remote_files = some rs → rs ≠ [] →
        mapPaths h.output_dir h.keep_depth rs = .ok copyList →
        downloadAlien o.alienAvailable o.initResult o.batchOk
            h.alien_session (copyList.map Prod.fst) (copyList.map Prod.snd)
          = .ok (nOk, attr2) →
        download h o
          = .ok ⟨none, some (nOk, copyList.length), [], [.batchCalled],
              { h with alien_session := attr2 }⟩) := by
  refine ⟨rfl, rfl, ?_, ?_, ?_⟩
  · intro sess hbo
    simp [downloadAlien, ensureAlienConnection, hbo]
  · intro sess hbo
    simp [downloadAlien, ensureAlienConnection, hbo]
  · intro hb hg hrf hne hmap hda
    have hrse : rs.isEmpty = false := by
      cases rs with
      | nil => exact absurd rfl hne
      | cons a tl => rfl
    unfold download
    rw [hg]
    simp only [resolveRemoteGlobs]
    simp [mergeFound, hrf, hrse, hmap, hb, hda]

theorem c9_batchAllOrNothing_witness :
    downloadAlien true (some ⟨1⟩) (fun _ _ => true) (.present (some ⟨2⟩))
        ["r1", "r2"] ["l1", "l2"]
      = .ok (2, .present (some ⟨2⟩)) :=
  (c9_batchAllOrNothing (some ⟨1⟩) none (fun _ _ => true) ["r1", "r2"]
      ["l1", "l2"]
      ⟨"alienpy", "out", none, none, 8, none, .present none⟩
      ⟨true, none, [], fun _ => none, fun _ _ => true⟩
      [] [] 0 .absent rfl).2.2.2.1 ⟨2⟩ rfl

/-- C10 counterexample: a handler configured with an *empty*
`remote_files` list and one glob spec.  The glob resolves to a path, yet
the run's trace shows the rebind branch (`self.remote_files =
found_files`), not the in-place `extend`: the resolved path is not
appended to the very list object supplied in the configuration (that
empty list is left untouched), so the claim's universal "appended in
place to the supplied list object" fails on this input. -/
theorem c10_counterexample :
    (download ⟨"TGrid", "out", some [], some [("b", "*")], 16, some 5,
          .present (some ⟨0⟩)⟩
        ⟨true, none, [some "a/b/p.root"], fun _ => some "f",
          fun _ _ => true⟩).toOption.map DownloadRun.trace
      = some [.listRebound, .deletedSession, .poolStarted] ∧
    Event.listExtended ∉
      [Event.listRebound, Event.deletedSession, Event.poolStarted] ∧
    (download ⟨"TGrid", "out", some [], some [("b", "*")], 16, some 5,
          .present (some ⟨0⟩)⟩
        ⟨true, none, [some "a/b/p.root"], fun _ => some "f",
          fun _ _ => true⟩).toOption.map
        (fun r => r.handler.remote_files)
      = some (some ["a/b/p.root"]) := by
  exact ⟨rfl, by decide, rfl⟩

/-- C10 amended: `download()` is not read-only on the handler.  When the
configured `remote_files` list is non-empty, every glob-resolved path is
appended in place to that very list (the `extend` branch, mutating the
caller-supplied object); when it is absent or empty, the handler instead
rebinds `remote_files` to the freshly resolved list.  In the `TGrid`
branch the `alien_session` attribute is deleted from the handler before
the worker pool starts (the trace orders `deletedSession` before
`poolStarted`).  A second call to `download()` on the same handler
operates on the extended file list `rs ++ found`, not the originally
configured `rs`. -/
theorem c10_downloadMutatesHandler (h : Handler) (o o2 : Oracles)
    (rs found : List String) (attr1 : SessionAttr)
    (copyList : List (String × String))
    (hglob : resolveRemoteGlobs o.alienAvailable o.initResult
        h.remote_files_glob o.queryResults h.alien_session
        = .ok (found, attr1))
    (hrs : h.remote_files = some rs)
    (hrsne : rs ≠ [])
    (hfne : found ≠ [])
    (hback : h.backend = "TGrid")
    (hattr : attr1 ≠ .absent)
    (hmap : mapPaths h.output_dir h.keep_depth (rs ++ found)
        = .ok copyList) :
    download h o
      = .ok ⟨none,
          some ((copyList.map o.workerFetch).countP (fun r => r.isSome),
            copyList.length),
          copyList, [.listExtended, .deletedSession, .poolStarted],
          { h with remote_files := some (rs ++ found),
                   alien_session := .absent }⟩ ∧
    (∀ attr2 : SessionAttr,
        resolveRemoteGlobs o2.alienAvailable o2.initResult
            h.remote_files_glob o2.queryResults .absent
          = .ok ([], attr2) →
        attr2 = .absent →
        download { h with remote_files := some (rs ++ found),
                          alien_session := .absent } o2
          = .ok ⟨none,
              some ((copyList.map o2.workerFetch).countP (fun r => r.isSome),
                copyList.length),
              copyList, [.poolStarted],
              { h with remote_files := some (rs ++ found),
                       alien_session := .absent }⟩) := by
  have hrse : rs.isEmpty = false := by
    cases rs with
    | nil => exact absurd rfl hrsne
    | cons a tl => rfl
  have hfe : found.isEmpty = false := by
    cases found with
    | nil => exact absurd rfl hfne
    | cons a tl => rfl
  have hcat : (rs ++ found).isEmpty = false := by
    cases rs with
    | nil => exact absurd rfl hrsne
    | cons a tl => rfl
  constructor
  · unfold download
    rw [hglob]
    obtain ⟨sv, hsv⟩ : ∃ sv, attr1 = .present sv := by
      cases attr1 with
      | absent => exact absurd rfl hattr
      | present sv => exact ⟨sv, rfl⟩
    subst hsv
    simp [mergeFound, hfe, hrs, hrse, hcat, hmap, hback]
  · intro attr2 hglob2 hattr2
    subst hattr2
    unfold download
    rw [hglob2]
    simp [mergeFound, hcat, hmap, hback]

theorem c10_downloadMutatesHandler_witness :
    download ⟨"TGrid", "out", some ["q/w/e.root"], some [("b", "*")], 16,
        some 5, .present none⟩
      ⟨true, some ⟨1⟩, [some "a/b/p.root"], fun _ => none, fun _ _ => false⟩
      = .ok ⟨none, some (0, 2),
          [("q/w/e.root", "out/q/w/e.root"),
            ("a/b/p.root", "out/a/b/p.root")],
          [.listExtended, .deletedSession, .poolStarted],
          ⟨"TGrid", "out", some ["q/w/e.root", "a/b/p.root"],
            some [("b", "*")], 16, some 5, .absent⟩⟩ :=
  (c10_downloadMutatesHandler
      ⟨"TGrid", "out", some ["q/w/e.root"], some [("b", "*")], 16, some 5,
        .present none⟩
      ⟨true, some ⟨1⟩, [some "a/b/p.root"], fun _ => none, fun _ _ => false⟩
      ⟨false, none, [], fun _ => some "y", fun _ _ => false⟩
      ["q/w/e.root"] ["a/b/p.root"] (.present (some ⟨1⟩))
      [("q/w/e.root", "out/q/w/e.root"), ("a/b/p.root", "out/a/b/p.root")]
      rfl rfl (by decide) (by decide) rfl (by decide) rfl).1

theorem c4_raisesIffNoKeptDirs_witness :
    uniqueLocalPath "out" (some 0) "a/b.root" = .error .typeError :=
  (c4_raisesIffNoKeptDirs "out" "a/b.root" (some 0)).mpr ⟨0, rfl, by decide⟩

/-- C1: evaluation of `_auto_unique_path` at the claim's own collision
input.  Because the Python function re-creates `seen = set()` locally on
every call, the depth-1 candidate is never "already seen": both
`/x/y/f.root` and `/z/y/f.root` map to the same local name `out/f.root`,
so the function never escalates to depth 2 and the two names are not
distinct. -/
theorem c1_autoUniqueCollision :
    autoUniquePath "out" "/x/y/f.root" "f.root" = "out/f.root" ∧
    autoUniquePath "out" "/z/y/f.root" "f.root" = "out/f.root" ∧
    autoUniquePath "out" "/x/y/f.root" "f.root"
      = autoUniquePath "out" "/z/y/f.root" "f.root" :=
  ⟨rfl, rfl, rfl⟩
